import Mathlib

/-!
Shallow embedding of the 4theeyeai backend knowledge-base pipeline
(`src/api/services/knowledge_base_service.py`,
`src/api/services/company_document_service.py`,
`src/api/routes/knowledge_base_routes.py`,
`src/api-old/services/openai_service.py`).

Strings are Lean `String`s; filesystem and database effects are made
explicit (association-list states, `Except String` for Python
exceptions carrying their message).
-/

/-- Python `str.replace(old, new)` for a one-character pattern and a
one-character replacement — the only form this codebase uses: every
occurrence of `old`, scanned left to right, becomes `new`. -/
def pyReplaceChar (old new : Char) : List Char → List Char
  | [] => []
  | c :: cs => (if c = old then new else c) :: pyReplaceChar old new cs

/-- Python `s.replace(old, new)` on strings, single-character
pattern and replacement. -/
def pyReplace (old new : Char) (s : String) : String :=
  ⟨pyReplaceChar old new s.data⟩

/-- Source: `company_name.replace(" ", "_").replace("/", "_")` — the
normalization used by `KnowledgeBaseService.get_vector_store_path`
(knowledge_base_service.py line 39) and duplicated in
`CompanyDocumentService.save_uploaded_file`
(company_document_service.py line 36). -/
def safe_company_name (name : String) : String :=
  pyReplace '/' '_' (pyReplace ' ' '_' name)

/-- Source: `KnowledgeBaseService.get_vector_store_path`: `self.base_dir /
safe_company_name` — POSIX `Path` join, rendered as joining with a
single `/` separator (knowledge_base_service.py lines 36-40).
Parameterized by the base directory. -/
def get_vector_store_path (baseDir name : String) : String :=
  baseDir ++ "/" ++ safe_company_name name

/-- Source: `self.base_dir`: the default of the `VECTOR_STORE_BASE_DIR`
environment variable (knowledge_base_service.py line 21). -/
def base_dir : String := "./vector_stores"

/-- The vector store path with the default base directory. -/
def vector_store_path (name : String) : String :=
  get_vector_store_path base_dir name

/-- The spec's description of the normalization, written from its words:
"a deterministic filesystem path derived by replacing spaces and slashes
with underscores" — a single simultaneous character map. Used only to
compare with `safe_company_name`, which is translated from the source. -/
def spec_normalize (s : String) : String :=
  ⟨s.data.map (fun c => if c = ' ' || c = '/' then '_' else c)⟩

lemma pyReplaceChar_eq_map (a b : Char) (l : List Char) :
    pyReplaceChar a b l = l.map (fun c => if c = a then b else c) := by
  induction l with
  | nil => simp [pyReplaceChar]
  | cons c cs ih => simp [pyReplaceChar, ih]

lemma safe_company_name_eq_map (name : String) :
    safe_company_name name =
      ⟨name.data.map (fun c => if c = ' ' || c = '/' then '_' else c)⟩ := by
  show (⟨pyReplaceChar '/' '_'
      (String.data ⟨pyReplaceChar ' ' '_' name.data⟩)⟩ : String) = _
  simp only [pyReplaceChar_eq_map, List.map_map]
  congr 1
  apply List.map_congr_left
  intro c _
  by_cases hs : c = ' '
  · subst hs; simp [Function.comp]
  · by_cases hsl : c = '/'
    · subst hsl; simp [Function.comp, hs]
    · simp [Function.comp, hs, hsl]

/-! ## Text splitting (ingestion pipeline) -/

/-- Source: `chunk_size=1000` passed to the text splitter
(knowledge_base_service.py line 70). -/
def chunk_size : Nat := 1000

/-- Source: `chunk_overlap=200` passed to the text splitter
(knowledge_base_service.py line 71). -/
def chunk_overlap : Nat := 200

/-- Modelled from the spec: the splitting itself is performed by the
third-party `RecursiveCharacterTextSplitter` (`langchain_text_splitters`),
whose code is not part of this repository; the spec describes its effect
as "split into fixed-size overlapping text windows (1000 chars, 200
overlap, by character count)". This is the fixed-stride character
window: each window takes `size` characters and the next window starts
`size - overlap` characters later; the last window holds whatever
remains. `step` is passed as `size - overlap`. -/
def splitWindowsGo (size step : Nat) : Nat → List Char → List (List Char)
  | 0, text => [text]
  | fuel + 1, text =>
    if step = 0 ∨ text.length ≤ size then [text]
    else text.take size :: splitWindowsGo size step fuel (text.drop step)

/-- The window list itself: `text.length` is enough fuel because each
round consumes at least one character. -/
def splitWindowsL (size step : Nat) (text : List Char) : List (List Char) :=
  splitWindowsGo size step text.length text

/-- Windows of a page's text as strings, with the configured size and
overlap (`length_function=len`: character count). -/
def splitText (text : String) : List String :=
  (splitWindowsL chunk_size (chunk_size - chunk_overlap) text.data).map
    (fun l => (⟨l⟩ : String))

/-- Source: `text_splitter.split_documents(documents)`: every page of every
loaded document is split and the chunks concatenated in order
(knowledge_base_service.py line 74; pages are the unit PyPDFLoader
yields). -/
def splitPages (pages : List String) : List String :=
  pages.flatMap splitText

/-! ## KnowledgeBaseService -/

/-- The filesystem of vector stores: an association list from directory
path to the list of chunks persisted there (one entry per existing
directory, keys distinctness irrelevant because directory removal
removes every entry at the path). -/
def KBState : Type := List (String × List String)

instance : DecidableEq KBState := by
  unfold KBState
  infer_instance

/-- Store lookup: the chunks persisted at `path`, or `none` when the
directory does not exist. -/
def kbLookup (st : KBState) (path : String) : Option (List String) :=
  List.lookup path st

/-- Source: `shutil.rmtree(path)` on the store state: the directory at `path`
is gone. -/
def kbRemove (st : KBState) (path : String) : KBState :=
  List.filter (fun e => !(e.1 == path)) st

/-- Wraps the result of a method body the way the Python
`except Exception as e` / `raise Exception` blocks
do: successes pass through, any exception is re-raised with its message
prefixed. -/
def wrapErr (pre : String) : Except String α → Except String α
  | .ok a => .ok a
  | .error e => .error (pre ++ e)

/-- The dictionary returned by a successful
`KnowledgeBaseService.upload_and_process_pdf`
(knowledge_base_service.py lines 96-101). -/
structure UploadResult where
  vector_store_path : String
  document_count : Nat
  chunk_count : Nat
  status : String
deriving DecidableEq

/-- Source: `KnowledgeBaseService.upload_and_process_pdf`
(knowledge_base_service.py lines 42-105). `loadPdf` is the outcome of
`PyPDFLoader(file_path).load()` — the list of page texts, or the
exception it raises. An empty page list raises
`ValueError("PDF file is empty or could not be read")`; otherwise the
pages are split, an existing store directory for the company is removed
wholesale, and a new store holding exactly the new chunks is created.
The whole body is guarded by the `except` block that re-raises with the
`"Error processing PDF: "` prefix. -/
def upload_and_process_pdf (st : KBState)
    (loadPdf : Except String (List String)) (company : String) :
    Except String (KBState × UploadResult) :=
  wrapErr "Error processing PDF: " (do
    let documents ← loadPdf
    if documents.isEmpty then
      throw "PDF file is empty or could not be read"
    else
      let splits := splitPages documents
      let path := vector_store_path company
      let st1 := if (kbLookup st path).isSome then kbRemove st path else st
      let st2 : KBState := (path, splits) :: st1
      pure (st2, ⟨path, documents.length, splits.length, "success"⟩))

/-- Source: the retriever k of 4 passed via search kwargs
(knowledge_base_service.py line 153). -/
def retriever_k : Nat := 4

/-- A retrieved source document: page metadata and page content
(the fields `answer_question` reads). -/
structure Document where
  page : Nat
  page_content : String
deriving DecidableEq

/-- The dictionary returned by `qa_chain.invoke`: the generated text
under `"result"` (absent modelled as `none`) and the retrieved
`"source_documents"`. -/
structure ChainResult where
  result : Option String
  source_documents : List Document
deriving DecidableEq

/-- One entry of the `sources` list built by `answer_question`
(knowledge_base_service.py lines 166-175). -/
structure SourceSnippet where
  page : Nat
  content : String
deriving DecidableEq

/-- The dictionary returned by a successful
`KnowledgeBaseService.answer_question`
(knowledge_base_service.py lines 177-181). -/
structure AnswerResult where
  answer : String
  sources : List SourceSnippet
  confidence_score : ℚ
deriving DecidableEq

/-- The snippet trimming of knowledge_base_service.py lines 169-173:
`doc.page_content[:200] + "..."` when the content exceeds 200
characters, the untouched content otherwise. -/
def trimSnippet (c : String) : String :=
  if 200 < c.length then ⟨c.data.take 200⟩ ++ "..." else c

/-- Source: `KnowledgeBaseService.answer_question`
(knowledge_base_service.py lines 107-185). `invoke` is the outcome of
`qa_chain.invoke` on the query as a function of the question
and the retriever's `k`; a missing store raises `ValueError`, the
sources are the first three retrieved documents trimmed to
200-character snippets, and the confidence score is the hardcoded
`0.8`. The body is wrapped by the `"Error answering question: "`
re-raise. -/
def answer_question (st : KBState)
    (invoke : String → Nat → Except String ChainResult)
    (company question : String) : Except String AnswerResult :=
  wrapErr "Error answering question: " (do
    let path := vector_store_path company
    if (kbLookup st path).isSome then do
      let r ← invoke question retriever_k
      let sources := (r.source_documents.take 3).map
        (fun d => SourceSnippet.mk d.page (trimSnippet d.page_content))
      pure ⟨r.result.getD "پاسخی یافت نشد.", sources, 0.8⟩
    else
      throw ("No knowledge base found for company: " ++ company ++
        ". Please upload a PDF document first."))

/-- Source: `KnowledgeBaseService.delete_company_knowledge_base`
(knowledge_base_service.py lines 187-210). `rmtreeOutcome` is the
outcome of the `shutil.rmtree` call when it happens. Returns `true`
after removing an existing store, `false` when none exists; errors are
re-raised with the `"Error deleting vector store: "` prefix. -/
def delete_company_knowledge_base (st : KBState)
    (rmtreeOutcome : Except String Unit) (company : String) :
    Except String (Bool × KBState) :=
  wrapErr "Error deleting vector store: " (do
    let path := vector_store_path company
    if (kbLookup st path).isSome then do
      let _ ← rmtreeOutcome
      pure (true, kbRemove st path)
    else
      pure (false, st))

/-- Source: `KnowledgeBaseService.check_company_knowledge_base_exists`
(knowledge_base_service.py lines 212-215). `pathExists` is the outcome
of `Path.exists()` on the store path — like every external call it may
raise. Note the source has no `try`/`except` here: the body's outcome
is returned as is. -/
def check_company_knowledge_base_exists
    (pathExists : String → Except String Bool) (company : String) :
    Except String Bool :=
  pathExists (vector_store_path company)

/-! ## CompanyDocumentService -/

/-- Source: `self.uploads_dir`: the default of the `PDF_UPLOADS_DIR`
environment variable (company_document_service.py line 16). -/
def uploads_dir : String := "./pdf_uploads"

/-- A row of the `company_documents` table, with the columns the
services read (company_document_model.py; `vector_store_path` and
`description` are nullable). -/
structure DocRecord where
  company_name : String
  file_name : String
  file_path : String
  vector_store_path : Option String
  description : Option String
deriving DecidableEq

/-- The state `CompanyDocumentService` acts on: the table rows keyed by
primary key `id`, the set of files on disk, and the set of vector store
directories on disk. -/
structure AppState where
  db : List (Nat × DocRecord)
  files : List String
  vstores : List String
deriving DecidableEq

/-- Source: `CompanyDocumentService.save_uploaded_file`
(company_document_service.py lines 20-50): normalizes the company name
the same way the vector store path does, writes the file under
`uploads_dir/safe_company_name/file_name` (`write` is the outcome of
`mkdir` + `open`/`write`), and returns the path; errors are re-raised
with the `"Error saving file: "` prefix. -/
def save_uploaded_file (write : Except String Unit)
    (company fileName : String) : Except String String :=
  wrapErr "Error saving file: " (do
    let dir := uploads_dir ++ "/" ++ safe_company_name company
    let _ ← write
    pure (dir ++ "/" ++ fileName))

/-- Source: `CompanyDocumentService.create_document_record`
(company_document_service.py lines 52-90): adds and commits a row built
from the arguments (`commit` is the outcome of `db.add`/`commit`/
`refresh`) and returns it; errors roll back and are re-raised with the
`"Error creating document record: "` prefix. -/
def create_document_record (commit : Except String Unit)
    (company fileName filePath : String)
    (vectorStorePath descr : Option String) : Except String DocRecord :=
  wrapErr "Error creating document record: " (do
    let _ ← commit
    pure ⟨company, fileName, filePath, vectorStorePath, descr⟩)

/-- Source: `CompanyDocumentService.get_documents_by_company`
(company_document_service.py lines 92-104): the rows whose
`company_name` equals the argument (`dbFail` carries the message when
the query raises); errors are re-raised with the
`"Error getting documents: "` prefix. -/
def get_documents_by_company (st : AppState) (dbFail : Option String)
    (company : String) : Except String (List DocRecord) :=
  wrapErr "Error getting documents: " (do
    match dbFail with
    | some e => throw e
    | none =>
      pure (((st.db.filter (fun r => r.2.company_name == company)).map
        (fun r => r.2))))

/-- Source: `CompanyDocumentService.get_document_by_id`
(company_document_service.py lines 106-118): `.first()` of the rows
with the given id; errors are re-raised with the
`"Error getting document: "` prefix. -/
def get_document_by_id (st : AppState) (dbFail : Option String)
    (id : Nat) : Except String (Option DocRecord) :=
  wrapErr "Error getting document: " (do
    match dbFail with
    | some e => throw e
    | none => pure ((st.db.find? (fun r => r.1 == id)).map (fun r => r.2)))

/-- Source: `CompanyDocumentService.delete_document`
(company_document_service.py lines 120-146): looks the record up via
`get_document_by_id`; a missing record returns `false` and changes
nothing. Otherwise the record's file is removed when it exists on disk,
its vector store directory is removed when recorded and existing, the
row is deleted, and the call returns `true`; errors are re-raised with
the `"Error deleting document: "` prefix. -/
def delete_document (st : AppState) (dbFail : Option String)
    (id : Nat) : Except String (Bool × AppState) :=
  wrapErr "Error deleting document: " (do
    let docOpt ← get_document_by_id st dbFail id
    match docOpt with
    | none => pure (false, st)
    | some doc =>
      let files1 := if st.files.contains doc.file_path then
          st.files.erase doc.file_path else st.files
      let vstores1 := match doc.vector_store_path with
        | none => st.vstores
        | some vp => if st.vstores.contains vp then
            st.vstores.erase vp else st.vstores
      let db1 := st.db.eraseP (fun r => r.1 == id)
      pure (true, AppState.mk db1 files1 vstores1))

/-! ## HTTP routes (knowledge_base_routes.py) -/

/-- Outcome of a route handler: a payload, or an `HTTPException` with
status code and detail. -/
inductive HTTPResult (α : Type) where
  | ok : α → HTTPResult α
  | httpError : Nat → String → HTTPResult α
deriving DecidableEq

/-- Python `str.lower()` restricted to ASCII case folding (the suffix
compared against is the ASCII string `".pdf"`). -/
def pyLowerStr (s : String) : String :=
  ⟨s.data.map (fun c =>
    if 'A' ≤ c ∧ c ≤ 'Z' then Char.ofNat (c.toNat + 32) else c)⟩

/-- Python `str.endswith(suf)`. -/
def pyEndsWith (suf s : String) : Bool :=
  suf.data.isSuffixOf s.data

/-- Python `str.startswith(pre)` / `bytes.startswith(pre)` (the upload
content is compared bytewise against the ASCII magic `%PDF`). -/
def pyStartsWith (pre s : String) : Bool :=
  pre.data.isPrefixOf s.data

/-- Source: `upload_pdf` (knowledge_base_routes.py lines 20-75): a missing
filename or one whose lowercase form does not end in `.pdf` is a 400;
content that does not start with `%PDF` is a 400; then the file is
saved, processed and recorded (each step's outcome a parameter), any
`HTTPException` passes through, and any other exception becomes a 500
whose detail is the exception message. -/
def upload_pdf (filename content : String)
    (save : Except String String)
    (process : Except String UploadResult)
    (createRecord : Except String DocRecord) : HTTPResult DocRecord :=
  if filename = "" || !(pyEndsWith ".pdf" (pyLowerStr filename)) then
    .httpError 400 "File must be a PDF (.pdf)"
  else if !(pyStartsWith "%PDF" content) then
    .httpError 400 "Invalid PDF file format"
  else
    match save with
    | .error e => .httpError 500 e
    | .ok _ =>
      match process with
      | .error e => .httpError 500 e
      | .ok _ =>
        match createRecord with
        | .error e => .httpError 500 e
        | .ok d => .ok d

/-- The response body of `ask_question`
(knowledge_base_routes.py lines 102-107 and
company_document_schema.py). -/
structure QuestionResponse where
  answer : String
  company_name : String
  sources : List SourceSnippet
  confidence_score : ℚ
deriving DecidableEq

/-- Source: `ask_question` (knowledge_base_routes.py lines 78-112): when
`check_company_knowledge_base_exists` returns `false` the route raises
a 404; otherwise `answer_question`'s result is turned into the
response; any other exception (from the check or the answer) becomes a
500 with the message as detail. -/
def ask_question (check : Except String Bool)
    (answer : Except String AnswerResult)
    (company : String) : HTTPResult QuestionResponse :=
  match check with
  | .error e => .httpError 500 e
  | .ok false =>
    .httpError 404 ("No knowledge base found for company: " ++ company ++
      ". Please upload a PDF first.")
  | .ok true =>
    match answer with
    | .error e => .httpError 500 e
    | .ok r => .ok ⟨r.answer, company, r.sources, r.confidence_score⟩

/-- Source: `get_document` (knowledge_base_routes.py lines 129-142): a missing
document is a 404 `"Document not found"`, a service error a 500. -/
def get_document_route (lookup : Except String (Option DocRecord)) :
    HTTPResult DocRecord :=
  match lookup with
  | .error e => .httpError 500 e
  | .ok none => .httpError 404 "Document not found"
  | .ok (some d) => .ok d

/-- Source: `delete_document` route (knowledge_base_routes.py lines 145-159):
`delete_document` returning `false` is a 404 `"Document not found"`,
a service error a 500, success a confirmation message. -/
def delete_document_route (del : Except String Bool)
    (documentId : Nat) : HTTPResult (String × Nat) :=
  match del with
  | .error e => .httpError 500 e
  | .ok false => .httpError 404 "Document not found"
  | .ok true => .ok ("Document deleted successfully", documentId)

/-! ## OpenAIService (src/api-old/services/openai_service.py) -/

/-- The arguments of an outbound `requests` POST that the claims are
about: target URL, timeout, certificate verification flag, and whether
the pooled session issued it. -/
structure HttpPost where
  url : String
  timeout : Nat
  verify : Bool
  viaSession : Bool
deriving DecidableEq

/-- The direct-connection POST of `get_assistant_response`
(openai_service.py lines 118-129): `requests.post(self.url, ...,
timeout=30, verify=False, ...)`. -/
def direct_post (url : String) : HttpPost :=
  ⟨url, 30, false, false⟩

/-- The session-based POST of `get_assistant_response`
(openai_service.py lines 148-153): `self.session.post(self.url, ...,
timeout=30, verify=False)`. -/
def session_post (url : String) : HttpPost :=
  ⟨url, 30, false, true⟩

/-- The sequence of outbound POSTs one call to
`OpenAIService.get_assistant_response` issues
(openai_service.py lines 63-166): with `USE_DIRECT_CONNECTION` set, the
direct POST, followed by the session POST only when the direct attempt
raised; otherwise the session POST alone. -/
def get_assistant_response_posts (url : String)
    (useDirect directFails : Bool) : List HttpPost :=
  if useDirect then
    if directFails then [direct_post url, session_post url]
    else [direct_post url]
  else [session_post url]

/-! ## Evaluation lemmas -/

lemma kbLookup_remove_ne (st : KBState) (path q : String) (h : q ≠ path) :
    kbLookup (kbRemove st path) q = kbLookup st q := by
  induction st with
  | nil => rfl
  | cons e es ih =>
    obtain ⟨k, v⟩ := e
    unfold kbRemove at *
    by_cases hk : k = path
    · subst hk
      have hq : (q == k) = false := by
        simp only [beq_eq_false_iff_ne]; exact h
      simp only [List.filter, kbLookup, List.lookup, hq, beq_self_eq_true]
      exact ih
    · have hk2 : (k == path) = false := by
        simp only [beq_eq_false_iff_ne]; exact hk
      simp only [List.filter_cons, hk2]
      show kbLookup ((k, v) :: List.filter _ es) q = _
      by_cases hqk : q = k
      · subst hqk
        simp [kbLookup, List.lookup]
      · have hq : (q == k) = false := by
          simp only [beq_eq_false_iff_ne]; exact hqk
        simp only [kbLookup, List.lookup, hq]
        exact ih

lemma splitWindowsGo_head (size step fuel : Nat) (text : List Char)
    (hstep : 0 < step) (hf : text.length ≤ fuel) :
    (splitWindowsGo size step fuel text).head? = some (text.take size) := by
  cases fuel with
  | zero =>
    have ht : text = [] := List.eq_nil_of_length_eq_zero (Nat.le_zero.mp hf)
    subst ht
    simp [splitWindowsGo]
  | succ n =>
    by_cases hle : text.length ≤ size
    · have hcond : step = 0 ∨ text.length ≤ size := Or.inr hle
      simp [splitWindowsGo, hcond, List.take_of_length_le hle]
    · have hcond : ¬ (step = 0 ∨ text.length ≤ size) := by
        push_neg
        exact ⟨hstep.ne', Nat.lt_of_not_le hle⟩
      simp [splitWindowsGo, hcond]

lemma splitWindowsGo_len_le (size step fuel : Nat) (text : List Char)
    (hstep : 0 < step) (hf : text.length ≤ fuel) :
    ∀ c ∈ splitWindowsGo size step fuel text, c.length ≤ size := by
  induction fuel generalizing text with
  | zero =>
    have ht : text = [] := List.eq_nil_of_length_eq_zero (Nat.le_zero.mp hf)
    subst ht
    intro c hc
    simp [splitWindowsGo] at hc
    simp [hc]
  | succ n ih =>
    intro c hc
    unfold splitWindowsGo at hc
    by_cases hcond : step = 0 ∨ text.length ≤ size
    · rw [if_pos hcond] at hc
      simp at hc
      subst hc
      rcases hcond with h0 | h1
      · omega
      · exact h1
    · rw [if_neg hcond] at hc
      push_neg at hcond
      rcases List.mem_cons.mp hc with hc1 | hc2
      · subst hc1
        exact le_trans (List.length_take_le ..) le_rfl
      · have hdf : (text.drop step).length ≤ n := by
          rw [List.length_drop]
          omega
        exact ih (text.drop step) hdf c hc2

/-- The relation between consecutive windows: the earlier one is a full
`size`-character window and its last `size - step` characters are the
later one's first `size - step` characters. With `size = 1000` and
`step = 800` this is the 200-character overlap. -/
def windowRel (size step : Nat) (a b : List Char) : Prop :=
  a.length = size ∧ a.drop step = b.take (size - step)

lemma splitWindowsGo_chain (size step fuel : Nat) (text : List Char)
    (hstep : 0 < step) (hss : step ≤ size) (hf : text.length ≤ fuel) :
    List.Chain' (windowRel size step) (splitWindowsGo size step fuel text) := by
  induction fuel generalizing text with
  | zero => simp [splitWindowsGo]
  | succ n ih =>
    unfold splitWindowsGo
    by_cases hcond : step = 0 ∨ text.length ≤ size
    · rw [if_pos hcond]
      simp
    · rw [if_neg hcond]
      push_neg at hcond
      obtain ⟨h0, hlen⟩ := hcond
      have hdf : (text.drop step).length ≤ n := by
        rw [List.length_drop]
        omega
      rw [List.chain'_cons']
      refine ⟨?_, ih (text.drop step) hdf⟩
      intro b hb
      rw [splitWindowsGo_head size step n (text.drop step) hstep hdf] at hb
      simp only [Option.mem_def, Option.some.injEq] at hb
      subst hb
      constructor
      · rw [List.length_take]
        omega
      · rw [List.drop_take, List.take_take]
        congr 1
        omega

lemma answer_question_ok (st : KBState)
    (invoke : String → Nat → Except String ChainResult)
    (company question : String) (r : ChainResult)
    (hex : (kbLookup st (vector_store_path company)).isSome = true)
    (hinv : invoke question retriever_k = .ok r) :
    answer_question st invoke company question =
      .ok ⟨r.result.getD "پاسخی یافت نشد.",
           (r.source_documents.take 3).map
             (fun d => SourceSnippet.mk d.page (trimSnippet d.page_content)),
           0.8⟩ := by
  unfold answer_question
  simp [hex, hinv, wrapErr]

/-! ## Claims -/

/-- Claim C1: every successful `answer_question` returns a
`confidence_score` of exactly 0.8, whatever the company, question, or
retrieved chunks — a constant, never derived from retrieval
similarity. -/
theorem confidence_score_is_constant (st : KBState)
    (invoke : String → Nat → Except String ChainResult)
    (company question : String) (res : AnswerResult)
    (h : answer_question st invoke company question = .ok res) :
    res.confidence_score = 0.8 := by
  unfold answer_question at h
  cases hex : (kbLookup st (vector_store_path company)).isSome with
  | false => simp [hex, wrapErr] at h
  | true =>
    cases hinv : invoke question retriever_k with
    | error e => simp [hex, hinv, wrapErr] at h
    | ok r =>
      simp [hex, hinv, wrapErr] at h
      rw [← h]

theorem confidence_score_is_constant_witness :
    answer_question [("./vector_stores/acme", ["chunk"])]
        (fun _ _ => .ok ⟨some "hi", []⟩) "acme" "any question?" =
      .ok ⟨"hi", [], 0.8⟩ ∧
    (AnswerResult.mk "hi" [] 0.8).confidence_score = 0.8 := by
  constructor
  · rfl
  · exact confidence_score_is_constant
      [("./vector_stores/acme", ["chunk"])]
      (fun _ _ => .ok ⟨some "hi", []⟩) "acme" "any question?"
      ⟨"hi", [], 0.8⟩ rfl

/-- Claim C3: the vector store path is deterministic and equals the
base directory joined with the company name after replacing every
space and every forward slash with an underscore. -/
theorem vector_store_path_deterministic_spec (base name : String) :
    get_vector_store_path base name = base ++ "/" ++ spec_normalize name ∧
    get_vector_store_path base name = get_vector_store_path base name := by
  refine ⟨?_, rfl⟩
  unfold get_vector_store_path spec_normalize
  rw [safe_company_name_eq_map]

/-- Claim C8: every outbound POST of
`OpenAIService.get_assistant_response` — the direct-connection one and
the session-based one, on every execution path — is issued with TLS
certificate verification disabled (`verify=False`). -/
theorem outbound_posts_verify_disabled (url : String)
    (useDirect directFails : Bool) :
    ((get_assistant_response_posts url useDirect directFails).all
      (fun p => p.verify == false)) = true ∧
    (direct_post url).verify = false ∧
    (session_post url).verify = false := by
  refine ⟨?_, rfl, rfl⟩
  cases useDirect <;> cases directFails <;>
    simp [get_assistant_response_posts, direct_post, session_post]

/-- Claim C9: the company-name normalization is not injective — the
distinct names `"a b"`, `"a_b"` and `"a/b"` share one vector store
path, so an upload under `"a b"` replaces the store of `"a_b"`, and a
knowledge-base deletion under `"a/b"` removes it. -/
theorem normalization_not_injective_collision :
    ("a b" ≠ "a_b" ∧ "a b" ≠ "a/b" ∧ "a_b" ≠ "a/b") ∧
    vector_store_path "a b" = vector_store_path "a_b" ∧
    vector_store_path "a b" = vector_store_path "a/b" ∧
    upload_and_process_pdf [("./vector_stores/a_b", ["old chunk"])]
        (.ok ["new"]) "a b" =
      .ok ([("./vector_stores/a_b", ["new"])],
        ⟨"./vector_stores/a_b", 1, 1, "success"⟩) ∧
    delete_company_knowledge_base [("./vector_stores/a_b", ["old chunk"])]
        (.ok ()) "a/b" =
      .ok (true, ([] : KBState)) := by
  exact ⟨⟨by decide, by decide, by decide⟩, rfl, rfl, rfl, rfl⟩

lemma trimSnippet_spec (c : String) :
    (trimSnippet c).length ≤ 203 ∧
    (trimSnippet c).data.take 200 = c.data.take 200 ∧
    (c.length ≤ 200 → trimSnippet c = c) := by
  unfold trimSnippet
  by_cases h : 200 < c.length
  · rw [if_pos h]
    refine ⟨?_, ?_, ?_⟩
    · rw [String.length_append]
      show (c.data.take 200).length + ("...").length ≤ 203
      rw [List.length_take]
      have h1 : c.data.length = c.length := rfl
      have h3 : ("...").length = 3 := rfl
      omega
    · rw [String.data_append]
      show ((c.data.take 200) ++ "...".data).take 200 = c.data.take 200
      rw [List.take_append_of_le_length, List.take_take]
      · congr 1
      · rw [List.length_take]
        have : c.data.length = c.length := rfl
        omega
    · intro hle
      omega
  · rw [if_neg h]
    refine ⟨?_, rfl, fun _ => rfl⟩
    omega

/-- Claim C4: when a vector store already exists for a company,
`upload_and_process_pdf` on a readable non-empty PDF removes the whole
existing store directory and creates a new store holding exactly the
new document's chunks; nothing from the previous store survives, and no
other company's store is touched. -/
theorem reupload_replaces_store_wholesale (st : KBState) (company : String)
    (pages : List String)
    (hexists : (kbLookup st (vector_store_path company)).isSome = true)
    (hne : pages ≠ []) :
    ∃ st' res, upload_and_process_pdf st (.ok pages) company = .ok (st', res) ∧
      kbLookup st' (vector_store_path company) = some (splitPages pages) ∧
      (∀ q, q ≠ vector_store_path company → kbLookup st' q = kbLookup st q) ∧
      res = ⟨vector_store_path company, pages.length,
        (splitPages pages).length, "success"⟩ := by
  have hempty : pages.isEmpty = false := by
    cases pages with
    | nil => exact absurd rfl hne
    | cons a l => rfl
  refine ⟨(vector_store_path company, splitPages pages) ::
    kbRemove st (vector_store_path company), _, ?_, ?_, ?_, rfl⟩
  · unfold upload_and_process_pdf
    simp [wrapErr, hempty, hexists, hne, bind, Except.bind, pure, Except.pure]
  · simp [kbLookup, List.lookup]
  · intro q hq
    have hqb : (q == vector_store_path company) = false := by
      simp only [beq_eq_false_iff_ne]
      exact hq
    show List.lookup q _ = _
    simp only [List.lookup, hqb]
    exact kbLookup_remove_ne st (vector_store_path company) q hq

theorem reupload_replaces_store_wholesale_witness :
    ∃ st' res, upload_and_process_pdf [("./vector_stores/acme", ["old"])]
        (.ok ["new"]) "acme" = .ok (st', res) ∧
      kbLookup st' (vector_store_path "acme") = some (splitPages ["new"]) ∧
      (∀ q, q ≠ vector_store_path "acme" →
        kbLookup st' q = kbLookup [("./vector_stores/acme", ["old"])] q) ∧
      res = ⟨vector_store_path "acme", (["new"] : List String).length,
        (splitPages ["new"]).length, "success"⟩ :=
  reupload_replaces_store_wholesale [("./vector_stores/acme", ["old"])]
    "acme" ["new"] rfl (by decide)

/-- Claim C5: a successful `answer_question` requests the top-4 nearest
chunks from the retriever, and its `sources` list has at most 3
entries, each being a retrieved document's content trimmed to its first
200 characters (plus an ellipsis when it was longer; contents of at
most 200 characters pass through whole). -/
theorem answer_sources_top3_trimmed_k4 (st : KBState)
    (invoke : String → Nat → Except String ChainResult)
    (company question : String) (r : ChainResult)
    (hex : (kbLookup st (vector_store_path company)).isSome = true)
    (hinv : invoke question retriever_k = .ok r) :
    retriever_k = 4 ∧
    ∃ res, answer_question st invoke company question = .ok res ∧
      res.sources.length ≤ 3 ∧
      res.sources = (r.source_documents.take 3).map
        (fun d => SourceSnippet.mk d.page (trimSnippet d.page_content)) ∧
      ∀ s ∈ res.sources, ∃ d ∈ r.source_documents,
        s.content = trimSnippet d.page_content ∧
        s.content.length ≤ 203 ∧
        s.content.data.take 200 = d.page_content.data.take 200 ∧
        (d.page_content.length ≤ 200 → s.content = d.page_content) := by
  refine ⟨rfl, _, answer_question_ok st invoke company question r hex hinv,
    ?_, rfl, ?_⟩
  · rw [List.length_map]
    exact le_trans (List.length_take_le ..) le_rfl
  · intro s hs
    rw [List.mem_map] at hs
    obtain ⟨d, hd, hsd⟩ := hs
    refine ⟨d, List.take_subset 3 r.source_documents hd, ?_, ?_, ?_, ?_⟩
    · rw [← hsd]
    · rw [← hsd]
      exact (trimSnippet_spec d.page_content).1
    · rw [← hsd]
      exact (trimSnippet_spec d.page_content).2.1
    · intro hlen
      rw [← hsd]
      exact (trimSnippet_spec d.page_content).2.2 hlen

theorem answer_sources_top3_trimmed_k4_witness :
    retriever_k = 4 ∧
    ∃ res, answer_question [("./vector_stores/acme", ["chunk"])]
        (fun _ _ => .ok ⟨some "ans", [⟨1, "abc"⟩]⟩) "acme" "q?" =
        .ok res ∧
      res.sources.length ≤ 3 ∧
      res.sources = (([⟨1, "abc"⟩] : List Document).take 3).map
        (fun d => SourceSnippet.mk d.page (trimSnippet d.page_content)) ∧
      ∀ s ∈ res.sources, ∃ d ∈ ([⟨1, "abc"⟩] : List Document),
        s.content = trimSnippet d.page_content ∧
        s.content.length ≤ 203 ∧
        s.content.data.take 200 = d.page_content.data.take 200 ∧
        (d.page_content.length ≤ 200 → s.content = d.page_content) :=
  answer_sources_top3_trimmed_k4 [("./vector_stores/acme", ["chunk"])]
    (fun _ _ => .ok ⟨some "ans", [⟨1, "abc"⟩]⟩) "acme" "q?"
    ⟨some "ans", [⟨1, "abc"⟩]⟩ rfl rfl

/-- Claim C2 counterexample: the chunks are not all exactly 1000
characters — a loaded page of 5 characters is processed into a single
5-character chunk, which `upload_and_process_pdf` embeds and persists
as is. -/
theorem split_not_exactly_1000_counterexample :
    splitPages ["hello"] = ["hello"] ∧
    ("hello" : String).length = 5 ∧
    upload_and_process_pdf [] (.ok ["hello"]) "acme" =
      .ok ([("./vector_stores/acme", ["hello"])],
        ⟨"./vector_stores/acme", 1, 1, "success"⟩) ∧
    ¬ (∀ c ∈ splitPages ["hello"], c.length = 1000) := by
  refine ⟨rfl, rfl, rfl, ?_⟩
  intro hall
  have h5 : ("hello" : String).length = 1000 :=
    hall "hello" (List.mem_singleton.mpr rfl)
  exact absurd h5 (by decide)

/-- Claim C2 (amended): the splitter is configured with a chunk size of
1000 characters and an overlap of 200, measured by character count;
every produced window is at most 1000 characters, every window that is
followed by another is exactly 1000 characters and shares its last 200
characters with the start of the next window, and the final (or only)
window may be shorter. -/
theorem split_windows_size_overlap (text : String) :
    chunk_size = 1000 ∧ chunk_overlap = 200 ∧
    (∀ c ∈ splitText text, c.length ≤ 1000) ∧
    List.Chain' (windowRel 1000 800)
      (splitWindowsL chunk_size (chunk_size - chunk_overlap) text.data) := by
  refine ⟨rfl, rfl, ?_, ?_⟩
  · intro c hc
    unfold splitText at hc
    rw [List.mem_map] at hc
    obtain ⟨l, hl, hcl⟩ := hc
    have hlen := splitWindowsGo_len_le chunk_size (chunk_size - chunk_overlap)
      text.data.length text.data (by decide) le_rfl l hl
    rw [← hcl]
    show l.length ≤ 1000
    exact hlen
  · exact splitWindowsGo_chain 1000 800 text.data.length text.data
      (by decide) (by decide) le_rfl

theorem split_windows_size_overlap_witness :
    ("hello" ∈ splitText "hello") ∧ ("hello" : String).length ≤ 1000 :=
  ⟨by decide, (split_windows_size_overlap "hello").2.2.1 "hello" (by decide)⟩

lemma wrapErr_cases (pre : String) (x : Except String α) :
    (∃ a, wrapErr pre x = .ok a) ∨ ∃ m, wrapErr pre x = .error (pre ++ m) := by
  cases x with
  | ok a => exact Or.inl ⟨a, rfl⟩
  | error e => exact Or.inr ⟨e, rfl⟩

/-- Claim C6 (amended): every service method of `KnowledgeBaseService`
and `CompanyDocumentService` that performs work inside a `try` block —
`upload_and_process_pdf`, `answer_question`,
`delete_company_knowledge_base`, `save_uploaded_file`,
`create_document_record`, `get_documents_by_company`,
`get_document_by_id` and `delete_document` — either succeeds or
re-raises a generic exception whose message is the original message
prefixed with that method's fixed string; `get_vector_store_path` and
`check_company_knowledge_base_exists` have no handler. -/
theorem service_methods_wrap_exceptions :
    (∀ st loadPdf company,
      (∃ v, upload_and_process_pdf st loadPdf company = .ok v) ∨
      ∃ m, upload_and_process_pdf st loadPdf company =
        .error ("Error processing PDF: " ++ m)) ∧
    (∀ st invoke company question,
      (∃ v, answer_question st invoke company question = .ok v) ∨
      ∃ m, answer_question st invoke company question =
        .error ("Error answering question: " ++ m)) ∧
    (∀ st rmtreeOutcome company,
      (∃ v, delete_company_knowledge_base st rmtreeOutcome company = .ok v) ∨
      ∃ m, delete_company_knowledge_base st rmtreeOutcome company =
        .error ("Error deleting vector store: " ++ m)) ∧
    (∀ write company fileName,
      (∃ v, save_uploaded_file write company fileName = .ok v) ∨
      ∃ m, save_uploaded_file write company fileName =
        .error ("Error saving file: " ++ m)) ∧
    (∀ commit company fileName filePath vsp descr,
      (∃ v, create_document_record commit company fileName filePath vsp descr
        = .ok v) ∨
      ∃ m, create_document_record commit company fileName filePath vsp descr =
        .error ("Error creating document record: " ++ m)) ∧
    (∀ st dbFail company,
      (∃ v, get_documents_by_company st dbFail company = .ok v) ∨
      ∃ m, get_documents_by_company st dbFail company =
        .error ("Error getting documents: " ++ m)) ∧
    (∀ st dbFail docId,
      (∃ v, get_document_by_id st dbFail docId = .ok v) ∨
      ∃ m, get_document_by_id st dbFail docId =
        .error ("Error getting document: " ++ m)) ∧
    (∀ st dbFail docId,
      (∃ v, delete_document st dbFail docId = .ok v) ∨
      ∃ m, delete_document st dbFail docId =
        .error ("Error deleting document: " ++ m)) := by
  refine ⟨?_, ?_, ?_, ?_, ?_, ?_, ?_, ?_⟩ <;> intros <;> exact wrapErr_cases ..

/-- Claim C6 counterexample:
`check_company_knowledge_base_exists` has no `try`/`except` — an
exception raised by the path-existence check escapes with its message
unchanged instead of being re-raised with a method-specific prefix
(every wrapping prefix in these services starts with `"Error"`). -/
theorem check_exists_escapes_unwrapped :
    check_company_knowledge_base_exists (fun _ => .error "boom") "acme" =
      .error "boom" ∧
    ("boom" : String).startsWith "Error" = false :=
  ⟨rfl, by decide⟩

/-- Claim C7: the knowledge-base routes map failures to statuses: a
non-PDF upload (missing/empty filename, filename whose lowercase form
does not end in `.pdf`, or content not starting with `%PDF`) is a 400;
asking about a company whose knowledge base does not exist, and looking
up or deleting a nonexistent document id, are 404s; every other
exception raised while handling the request is a 500 whose detail is
the exception message. -/
theorem routes_status_mapping :
    (∀ filename content save process createRecord,
      (filename = "" ∨ pyEndsWith ".pdf" (pyLowerStr filename) = false) →
      upload_pdf filename content save process createRecord =
        .httpError 400 "File must be a PDF (.pdf)") ∧
    (∀ filename content save process createRecord,
      filename ≠ "" → pyEndsWith ".pdf" (pyLowerStr filename) = true →
      pyStartsWith "%PDF" content = false →
      upload_pdf filename content save process createRecord =
        .httpError 400 "Invalid PDF file format") ∧
    (∀ filename content e process createRecord,
      filename ≠ "" → pyEndsWith ".pdf" (pyLowerStr filename) = true →
      pyStartsWith "%PDF" content = true →
      upload_pdf filename content (.error e) process createRecord =
        .httpError 500 e) ∧
    (∀ filename content fp e createRecord,
      filename ≠ "" → pyEndsWith ".pdf" (pyLowerStr filename) = true →
      pyStartsWith "%PDF" content = true →
      upload_pdf filename content (.ok fp) (.error e) createRecord =
        .httpError 500 e) ∧
    (∀ filename content fp up e,
      filename ≠ "" → pyEndsWith ".pdf" (pyLowerStr filename) = true →
      pyStartsWith "%PDF" content = true →
      upload_pdf filename content (.ok fp) (.ok up) (.error e) =
        .httpError 500 e) ∧
    (∀ answer company, ask_question (.ok false) answer company =
      .httpError 404 ("No knowledge base found for company: " ++ company ++
        ". Please upload a PDF first.")) ∧
    (∀ e answer company, ask_question (.error e) answer company =
      .httpError 500 e) ∧
    (∀ e company, ask_question (.ok true) (.error e) company =
      .httpError 500 e) ∧
    (get_document_route (.ok none) = .httpError 404 "Document not found") ∧
    (∀ e, get_document_route (.error e) = .httpError 500 e) ∧
    (∀ docId, delete_document_route (.ok false) docId =
      .httpError 404 "Document not found") ∧
    (∀ e docId, delete_document_route (.error e) docId =
      .httpError 500 e) := by
  refine ⟨?_, ?_, ?_, ?_, ?_,
    fun answer company => rfl, fun e answer company => rfl,
    fun e company => rfl, rfl, fun e => rfl,
    fun docId => rfl, fun e docId => rfl⟩
  · intro filename content save process createRecord h
    rcases h with h1 | h2
    · subst h1
      rfl
    · simp [upload_pdf, h2]
  · intro filename content save process createRecord h1 h2 h3
    simp [upload_pdf, h1, h2, h3]
  · intro filename content e process createRecord h1 h2 h3
    simp [upload_pdf, h1, h2, h3]
  · intro filename content fp e createRecord h1 h2 h3
    simp [upload_pdf, h1, h2, h3]
  · intro filename content fp up e h1 h2 h3
    simp [upload_pdf, h1, h2, h3]

theorem routes_status_mapping_witness :
    upload_pdf "notes.txt" "%PDF-1.4" (.ok "p") (.ok ⟨"v", 1, 1, "success"⟩)
        (.error "db down") = .httpError 400 "File must be a PDF (.pdf)" ∧
    upload_pdf "doc.pdf" "hello" (.ok "p") (.ok ⟨"v", 1, 1, "success"⟩)
        (.error "db down") = .httpError 400 "Invalid PDF file format" ∧
    upload_pdf "doc.pdf" "%PDF-1.4" (.error "disk full")
        (.ok ⟨"v", 1, 1, "success"⟩) (.ok ⟨"c", "f", "p", none, none⟩) =
      .httpError 500 "disk full" ∧
    upload_pdf "doc.pdf" "%PDF-1.4" (.ok "p") (.error "bad pdf")
        (.ok ⟨"c", "f", "p", none, none⟩) = .httpError 500 "bad pdf" ∧
    upload_pdf "doc.pdf" "%PDF-1.4" (.ok "p") (.ok ⟨"v", 1, 1, "success"⟩)
        (.error "db down") = .httpError 500 "db down" ∧
    ask_question (.ok false) (.ok ⟨"a", [], 0.8⟩) "acme" =
      .httpError 404 ("No knowledge base found for company: acme" ++
        ". Please upload a PDF first.") ∧
    get_document_route (.ok none) = .httpError 404 "Document not found" ∧
    delete_document_route (.ok false) 7 =
      .httpError 404 "Document not found" := by
  have h := routes_status_mapping
  refine ⟨h.1 "notes.txt" "%PDF-1.4" _ _ _ (Or.inr (by decide)),
    h.2.1 "doc.pdf" "hello" _ _ _ (by decide) (by decide) (by decide),
    h.2.2.1 "doc.pdf" "%PDF-1.4" "disk full" _ _
      (by decide) (by decide) (by decide),
    h.2.2.2.1 "doc.pdf" "%PDF-1.4" "p" "bad pdf" _
      (by decide) (by decide) (by decide),
    h.2.2.2.2.1 "doc.pdf" "%PDF-1.4" "p" ⟨"v", 1, 1, "success"⟩ "db down"
      (by decide) (by decide) (by decide),
    ?_, h.2.2.2.2.2.2.2.2.1, h.2.2.2.2.2.2.2.2.2.2.1 7⟩
  have h404 := h.2.2.2.2.2.1 (.ok ⟨"a", [], 0.8⟩) "acme"
  exact h404

lemma erase_if_contains (l : List String) (a : String) :
    (if l.contains a then l.erase a else l) = l.erase a := by
  by_cases h : a ∈ l
  · rw [if_pos (List.elem_eq_true_of_mem h)]
  · rw [if_neg, List.erase_of_not_mem h]
    intro hc
    exact h (List.mem_of_elem_eq_true hc)

/-- Claim C10: `delete_document` on an id absent from the database
returns `False` and leaves the database, the uploaded files, and the
vector stores unchanged; on a present id it removes the record's file
when it exists on disk, its vector store directory when recorded and
existing, and the database row, and returns `True`. -/
theorem delete_document_state_spec (st : AppState) (docId : Nat) :
    ((st.db.find? (fun r => r.1 == docId)) = none →
      delete_document st none docId = .ok (false, st)) ∧
    (∀ rec, (st.db.find? (fun r => r.1 == docId)) = some rec →
      delete_document st none docId = .ok (true,
        AppState.mk (st.db.eraseP (fun r => r.1 == docId))
          (st.files.erase rec.2.file_path)
          (match rec.2.vector_store_path with
            | none => st.vstores
            | some vp => st.vstores.erase vp))) := by
  constructor
  · intro hnone
    unfold delete_document get_document_by_id
    simp [wrapErr, hnone, bind, Except.bind, pure, Except.pure]
  · intro rec hsome
    unfold delete_document get_document_by_id
    simp only [wrapErr, hsome, bind, Except.bind, pure, Except.pure,
      Option.map_some']
    rw [erase_if_contains]
    cases hvp : rec.2.vector_store_path with
    | none => rfl
    | some vp => simp only [erase_if_contains]

theorem delete_document_state_spec_witness :
    delete_document
        ⟨[(1, ⟨"acme", "f.pdf", "./pdf_uploads/acme/f.pdf",
            some "./vector_stores/acme", none⟩)],
          ["./pdf_uploads/acme/f.pdf"], ["./vector_stores/acme"]⟩
        none 2 =
      .ok (false,
        ⟨[(1, ⟨"acme", "f.pdf", "./pdf_uploads/acme/f.pdf",
            some "./vector_stores/acme", none⟩)],
          ["./pdf_uploads/acme/f.pdf"], ["./vector_stores/acme"]⟩) ∧
    delete_document
        ⟨[(1, ⟨"acme", "f.pdf", "./pdf_uploads/acme/f.pdf",
            some "./vector_stores/acme", none⟩)],
          ["./pdf_uploads/acme/f.pdf"], ["./vector_stores/acme"]⟩
        none 1 =
      .ok (true, ⟨[], [], []⟩) :=
  ⟨(delete_document_state_spec _ 2).1 rfl,
   (delete_document_state_spec _ 1).2
     (1, ⟨"acme", "f.pdf", "./pdf_uploads/acme/f.pdf",
       some "./vector_stores/acme", none⟩) rfl⟩
